import Mathlib

/-!
Verification of the facial-recognition movement classifier and capture-session
lifecycle (backend/routes/main.py and backend/routes/detection.py).

The landmark extractor (MediaPipe FaceMesh) is an external black box: a frame
either yields no face or one face whose nose-tip landmark is a pair of
normalized rational coordinates.  OpenCV drawing calls are modelled as
operations appended to the frame buffer's op list; the buffer keeps an
identity token so that in-place annotation is observable.  Python floats are
modelled as exact rationals: the only float, the threshold `w * 0.05`, is
compared against integers at distance at least `1/20` except when `20 ∣ w`,
where the IEEE product is exactly `w / 20`, so the rational model agrees with
the float semantics on every reachable comparison.
-/

namespace Facial

/-- An OpenCV drawing call recorded on a frame buffer. -/
inductive DrawOp where
  | landmarks : DrawOp
  | circle (center : ℤ × ℤ) (radius : ℕ) (color : ℕ × ℕ × ℕ) : DrawOp
  | line (p q : ℤ × ℤ) (color : ℕ × ℕ × ℕ) : DrawOp
  | text (s : String) (pos : ℤ × ℤ) : DrawOp
deriving DecidableEq

/-- A transient pixel buffer: `frame.shape` gives height `h`, width `w`;
`id` is the buffer's object identity, and `ops` the drawing calls applied
to it so far. -/
structure Frame where
  id : ℕ
  w : ℕ
  h : ℕ
  ops : List DrawOp
deriving DecidableEq

/-- Apply one drawing call to a frame buffer in place. -/
def pushOp (f : Frame) (op : DrawOp) : Frame :=
  { f with ops := f.ops ++ [op] }

/-- MovementClassifier state: `reference_nose_tip` and `calibrated`
(main.py lines 20-21). -/
structure FaceDetector where
  reference_nose_tip : Option (ℤ × ℤ)
  calibrated : Bool
deriving DecidableEq

/-- `FaceDetector.__init__`: no reference point, not calibrated. -/
def FaceDetector.init : FaceDetector :=
  { reference_nose_tip := none, calibrated := false }

/-- `FaceDetector.recalibrate` (main.py lines 119-122): reset calibration. -/
def FaceDetector.recalibrate (s : FaceDetector) : FaceDetector :=
  { s with reference_nose_tip := none, calibrated := false }

/-- Python `int()` conversion: truncation toward zero. -/
def pyInt (q : ℚ) : ℤ :=
  q.num.tdiv q.den

/-- `FaceDetector.detect_movement` (main.py lines 23-117).  The external
FaceMesh result is the `landmarks` argument: `none` when
`results.multi_face_landmarks` is empty, otherwise the nose-tip landmark's
normalized coordinates.  Returns the direction string, the annotated frame,
and the updated classifier state. -/
def FaceDetector.detect_movement (s : FaceDetector) (landmarks : Option (ℚ × ℚ))
    (frame : Frame) : String × Frame × FaceDetector :=
  match landmarks with
  | none =>
      ("NO FACE", pushOp frame (.text "No face detected" (10, 30)), s)
  | some lm =>
      let h := frame.h
      let w := frame.w
      let nose_x : ℤ := pyInt (lm.1 * w)
      let nose_y : ℤ := pyInt (lm.2 * h)
      let f1 := pushOp frame .landmarks
      if !s.calibrated || s.reference_nose_tip.isNone then
        let s' : FaceDetector :=
          { s with reference_nose_tip := some (nose_x, nose_y), calibrated := true }
        let direction := "CENTER (Calibrated)"
        let f2 := pushOp (pushOp f1 (.text ("Direction: " ++ direction) (10, 30)))
          (.text "Press \x27C\x27 to recalibrate" (10, (h : ℤ) - 20))
        (direction, f2, s')
      else
        -- the guard failed, so `reference_nose_tip` is `some`; `getD` is the
        -- total rendering of that unwrap
        let r := s.reference_nose_tip.getD (0, 0)
        let dx : ℤ := nose_x - r.1
        let dy : ℤ := nose_y - r.2
        let horizontal_threshold : ℚ := (w : ℚ) * (5 / 100)
        let vertical_threshold : ℚ := (h : ℚ) * (5 / 100)
        let direction := "NO FACE"
        let direction :=
          if |(dx : ℚ)| > horizontal_threshold ∨ |(dy : ℚ)| > vertical_threshold then
            if |dx| > |dy| then
              if (dx : ℚ) > horizontal_threshold then "RIGHT"
              else if (dx : ℚ) < -horizontal_threshold then "LEFT"
              else direction
            else
              if (dy : ℚ) > vertical_threshold then "DOWN"
              else if (dy : ℚ) < -vertical_threshold then "UP"
              else direction
          else "CENTER"
        let f2 := pushOp f1 (.circle r 5 (255, 0, 0))
        let f3 := pushOp f2 (.circle (nose_x, nose_y) 5 (0, 0, 255))
        let f4 := pushOp f3 (.line r (nose_x, nose_y) (255, 255, 0))
        let f5 := pushOp (pushOp f4 (.text ("Direction: " ++ direction) (10, 30)))
          (.text "Press \x27C\x27 to recalibrate" (10, (h : ℤ) - 20))
        (direction, f5, s)

/-- One pending device read: the raw frame together with the black-box
FaceMesh outcome on it (`none` nose means no face in that frame). -/
structure FrameRead where
  landmarks : Option (ℚ × ℚ)
  frame : Frame
deriving DecidableEq

/-- A `cv2.VideoCapture` handle: whether `isOpened()` holds, and the trace of
read results this device will deliver (`none` entry = failed read). -/
structure Camera where
  isOpened : Bool
  reads : List (Option FrameRead)
deriving DecidableEq

/-- Module-level state of detection.py: the `detector` and `camera` globals
(lines 13-14).  `opens` is a ghost counter of `cv2.VideoCapture`
constructions, used to state how many device handles were opened. -/
structure ServerState where
  detector : Option FaceDetector
  camera : Option Camera
  opens : ℕ
deriving DecidableEq

/-- State at module import: both globals are `None`. -/
def initServerState : ServerState :=
  { detector := none, camera := none, opens := 0 }

/-- `get_detector` (detection.py lines 17-22): lazily construct the detector. -/
def get_detector (st : ServerState) : FaceDetector × ServerState :=
  match st.detector with
  | none => (FaceDetector.init, { st with detector := some FaceDetector.init })
  | some d => (d, st)

/-- `get_camera` (detection.py lines 25-30): reopen only when the global is
`None` or reports closed.  `newCam` is the device the environment hands back
from the next `cv2.VideoCapture(0)` call. -/
def get_camera (newCam : Camera) (st : ServerState) : Camera × ServerState :=
  match st.camera with
  | some cam =>
      if cam.isOpened then (cam, st)
      else (newCam, { st with camera := some newCam, opens := st.opens + 1 })
  | none => (newCam, { st with camera := some newCam, opens := st.opens + 1 })

/-- The `while True` loop of `generate_frames` (detection.py lines 38-52):
read frames until a read fails, classifying each and yielding the annotated
frame; returns the yielded frames and the final classifier state.  A finite
trace models one execution; exhausting the trace is a read that never
returns. -/
def run_frames (d : FaceDetector) (reads : List (Option FrameRead)) :
    List Frame × FaceDetector :=
  match reads with
  | [] => ([], d)
  | none :: _ => ([], d)
  | some fr :: rest =>
      let out := d.detect_movement fr.landmarks fr.frame
      let tail := run_frames out.2.2 rest
      (out.2.1 :: tail.1, tail.2)

/-- `generate_frames` (detection.py lines 33-52): fetch the detector and
camera, then run the frame loop.  The detector global reflects the
classifier's calibration mutations; the camera global is not touched by the
loop. -/
def generate_frames (newCam : Camera) (st : ServerState) :
    List Frame × ServerState :=
  let dst := get_detector st
  let cst := get_camera newCam dst.2
  let out := run_frames dst.1 cst.1.reads
  (out.1, { cst.2 with detector := some out.2 })

/-- JSON response status field. -/
inductive Status where
  | success : Status
  | error : Status
deriving DecidableEq

/-- A control-endpoint JSON response with its HTTP code. -/
structure ApiResponse where
  status : Status
  message : String
  code : ℕ
deriving DecidableEq

/-- `start_detection` (detection.py lines 64-85). -/
def start_detection (newCam : Camera) (st : ServerState) :
    ApiResponse × ServerState :=
  let dst := get_detector st
  let cst := get_camera newCam dst.2
  if cst.1.isOpened then
    ({ status := .success, message := "Detection started", code := 200 }, cst.2)
  else
    ({ status := .error, message := "Could not access camera", code := 500 }, cst.2)

/-- `stop_detection` (detection.py lines 88-110): release and clear both
globals, then report success. -/
def stop_detection (st : ServerState) : ApiResponse × ServerState :=
  let st1 :=
    match st.camera with
    | some _ => { st with camera := none }
    | none => st
  let st2 :=
    match st1.detector with
    | some _ => { st1 with detector := none }
    | none => st1
  ({ status := .success, message := "Detection stopped", code := 200 }, st2)

/-- `recalibrate` route (detection.py lines 113-128): fetch (lazily creating)
the detector, reset its calibration, report success. -/
def recalibrate_route (st : ServerState) : ApiResponse × ServerState :=
  let dst := get_detector st
  let st1 := { dst.2 with detector := some dst.1.recalibrate }
  ({ status := .success, message := "Recalibrated successfully", code := 200 }, st1)

/-- `detection_status` (detection.py lines 131-141): active iff the camera
global is set and open. -/
def detection_status (st : ServerState) : Bool :=
  match st.camera with
  | some cam => cam.isOpened
  | none => false

/-! ## Helper lemmas -/

/-- Evaluation of `detect_movement` in the calibrated state: the direction is
the threshold table of main.py lines 80-94. -/
theorem detect_movement_calibrated (ref : ℤ × ℤ) (lm : ℚ × ℚ) (f : Frame) :
    ((FaceDetector.mk (some ref) true).detect_movement (some lm) f).1 =
      (if |((pyInt (lm.1 * f.w) - ref.1 : ℤ) : ℚ)| > (f.w : ℚ) * (5 / 100) ∨
          |((pyInt (lm.2 * f.h) - ref.2 : ℤ) : ℚ)| > (f.h : ℚ) * (5 / 100) then
         if |pyInt (lm.1 * f.w) - ref.1| > |pyInt (lm.2 * f.h) - ref.2| then
           if ((pyInt (lm.1 * f.w) - ref.1 : ℤ) : ℚ) > (f.w : ℚ) * (5 / 100) then "RIGHT"
           else if ((pyInt (lm.1 * f.w) - ref.1 : ℤ) : ℚ) < -((f.w : ℚ) * (5 / 100)) then "LEFT"
           else "NO FACE"
         else
           if ((pyInt (lm.2 * f.h) - ref.2 : ℤ) : ℚ) > (f.h : ℚ) * (5 / 100) then "DOWN"
           else if ((pyInt (lm.2 * f.h) - ref.2 : ℤ) : ℚ) < -((f.h : ℚ) * (5 / 100)) then "UP"
           else "NO FACE"
       else "CENTER") := rfl

/-! ## Claims -/

/-- C1: for a calibrated classifier with reference `(rx, ry)` processing a
detected face whose nose pixel is `(nx, ny)`, with `dx = nx - rx`,
`dy = ny - ry`: `|dx| ≤ 0.05W ∧ |dy| ≤ 0.05H` gives CENTER; `|dx| > |dy|`
with `dx > 0.05W` gives RIGHT; `|dx| > |dy|` with `dx < -0.05W` gives LEFT;
`|dy| ≥ |dx|` with `dy > 0.05H` gives DOWN; `|dy| ≥ |dx|` with `dy < -0.05H`
gives UP. -/
theorem detect_movement_direction_table
    (s : FaceDetector) (rx ry nx ny : ℤ) (lm : ℚ × ℚ) (f : Frame)
    (hcal : s.calibrated = true)
    (href : s.reference_nose_tip = some (rx, ry))
    (hnx : pyInt (lm.1 * f.w) = nx) (hny : pyInt (lm.2 * f.h) = ny) :
    ((((|nx - rx| : ℤ) : ℚ) ≤ (f.w : ℚ) * (5 / 100) ∧
      ((|ny - ry| : ℤ) : ℚ) ≤ (f.h : ℚ) * (5 / 100)) →
        (s.detect_movement (some lm) f).1 = "CENTER") ∧
    ((|nx - rx| > |ny - ry| ∧ ((nx - rx : ℤ) : ℚ) > (f.w : ℚ) * (5 / 100)) →
        (s.detect_movement (some lm) f).1 = "RIGHT") ∧
    ((|nx - rx| > |ny - ry| ∧ ((nx - rx : ℤ) : ℚ) < -((f.w : ℚ) * (5 / 100))) →
        (s.detect_movement (some lm) f).1 = "LEFT") ∧
    ((|ny - ry| ≥ |nx - rx| ∧ ((ny - ry : ℤ) : ℚ) > (f.h : ℚ) * (5 / 100)) →
        (s.detect_movement (some lm) f).1 = "DOWN") ∧
    ((|ny - ry| ≥ |nx - rx| ∧ ((ny - ry : ℤ) : ℚ) < -((f.h : ℚ) * (5 / 100))) →
        (s.detect_movement (some lm) f).1 = "UP") := by
  obtain ⟨ref, cal⟩ := s
  simp only [FaceDetector.calibrated] at hcal
  simp only [FaceDetector.reference_nose_tip] at href
  subst hcal href
  subst hnx hny
  rw [detect_movement_calibrated (rx, ry) lm f]
  have hht : (0 : ℚ) ≤ (f.w : ℚ) * (5 / 100) := by positivity
  have hvt : (0 : ℚ) ≤ (f.h : ℚ) * (5 / 100) := by positivity
  refine ⟨?_, ?_, ?_, ?_, ?_⟩ <;> rintro ⟨h1, h2⟩
  · rw [Int.cast_abs] at h1 h2
    rw [if_neg]
    push_neg
    exact ⟨h1, h2⟩
  · rw [if_pos (Or.inl (h2.trans_le (le_abs_self _))), if_pos h1, if_pos h2]
  · have houter : (f.w : ℚ) * (5 / 100) < |((pyInt (lm.1 * f.w) - rx : ℤ) : ℚ)| :=
      lt_of_lt_of_le (by linarith) (neg_le_abs _)
    rw [if_pos (Or.inl houter), if_pos h1, if_neg (by push_neg; linarith), if_pos h2]
  · rw [if_pos (Or.inr (h2.trans_le (le_abs_self _))), if_neg (not_lt.mpr h1), if_pos h2]
  · have houter : (f.h : ℚ) * (5 / 100) < |((pyInt (lm.2 * f.h) - ry : ℤ) : ℚ)| :=
      lt_of_lt_of_le (by linarith) (neg_le_abs _)
    rw [if_pos (Or.inr houter), if_neg (not_lt.mpr h1), if_neg (by push_neg; linarith),
      if_pos h2]

/-- C1 witness: the spec scenario W=640, H=480, reference (320,240),
nose (390,245): dx = 70 dominates dy = 5 and exceeds the threshold 32, so
the result is RIGHT. -/
theorem detect_movement_direction_table_witness :
    (|(390 - 320 : ℤ)| > |(245 - 240 : ℤ)| ∧
      ((390 - 320 : ℤ) : ℚ) > (640 : ℚ) * (5 / 100)) ∧
    ((FaceDetector.mk (some (320, 240)) true).detect_movement
        (some (390 / 640, 245 / 480)) (Frame.mk 0 640 480 [])).1 = "RIGHT" := by
  refine ⟨by norm_num, ?_⟩
  have h := (detect_movement_direction_table (FaceDetector.mk (some (320, 240)) true)
    320 240 390 245 (390 / 640, 245 / 480) (Frame.mk 0 640 480 [])
    rfl rfl (by norm_num [pyInt]) (by norm_num [pyInt])).2.1
  exact h ⟨by norm_num, by norm_num⟩

/-- C2: when the dominant-axis branch is chosen (the outer threshold test
passed) but that axis's own comparisons all fail, no new value is assigned in
the branch, so `detect_movement` returns the initial "NO FACE" string even
though a face was detected. -/
theorem detect_movement_deadzone
    (s : FaceDetector) (rx ry nx ny : ℤ) (lm : ℚ × ℚ) (f : Frame)
    (hcal : s.calibrated = true)
    (href : s.reference_nose_tip = some (rx, ry))
    (hnx : pyInt (lm.1 * f.w) = nx) (hny : pyInt (lm.2 * f.h) = ny)
    (houter : ((|nx - rx| : ℤ) : ℚ) > (f.w : ℚ) * (5 / 100) ∨
              ((|ny - ry| : ℤ) : ℚ) > (f.h : ℚ) * (5 / 100))
    (hfail : (|nx - rx| > |ny - ry| ∧ ((|nx - rx| : ℤ) : ℚ) ≤ (f.w : ℚ) * (5 / 100)) ∨
             (|ny - ry| ≥ |nx - rx| ∧ ((|ny - ry| : ℤ) : ℚ) ≤ (f.h : ℚ) * (5 / 100))) :
    (s.detect_movement (some lm) f).1 = "NO FACE" := by
  obtain ⟨ref, cal⟩ := s
  simp only [FaceDetector.calibrated] at hcal
  simp only [FaceDetector.reference_nose_tip] at href
  subst hcal href
  subst hnx hny
  rw [detect_movement_calibrated (rx, ry) lm f]
  rw [Int.cast_abs, Int.cast_abs] at houter
  rw [if_pos houter]
  rcases hfail with ⟨h1, h2⟩ | ⟨h1, h2⟩
  · rw [Int.cast_abs] at h2
    have hr : ¬ (((pyInt (lm.1 * f.w) - rx : ℤ) : ℚ) > (f.w : ℚ) * (5 / 100)) := by
      have := le_abs_self ((pyInt (lm.1 * f.w) - rx : ℤ) : ℚ)
      push_neg
      linarith
    have hl : ¬ (((pyInt (lm.1 * f.w) - rx : ℤ) : ℚ) < -((f.w : ℚ) * (5 / 100))) := by
      have := neg_le_abs ((pyInt (lm.1 * f.w) - rx : ℤ) : ℚ)
      push_neg
      linarith
    rw [if_pos h1, if_neg hr, if_neg hl]
  · rw [Int.cast_abs] at h2
    have hd : ¬ (((pyInt (lm.2 * f.h) - ry : ℤ) : ℚ) > (f.h : ℚ) * (5 / 100)) := by
      have := le_abs_self ((pyInt (lm.2 * f.h) - ry : ℤ) : ℚ)
      push_neg
      linarith
    have hu : ¬ (((pyInt (lm.2 * f.h) - ry : ℤ) : ℚ) < -((f.h : ℚ) * (5 / 100))) := by
      have := neg_le_abs ((pyInt (lm.2 * f.h) - ry : ℤ) : ℚ)
      push_neg
      linarith
    rw [if_neg (not_lt.mpr h1), if_neg hd, if_neg hu]

/-- C2 witness: W=640, H=480, reference (320,240), nose (350,269): dx = 30,
dy = 29, so the horizontal branch is chosen (29 > 24 passes the outer test)
but 30 is within the horizontal threshold 32, and the result is "NO FACE"
despite the detected face. -/
theorem detect_movement_deadzone_witness :
    (((|(350 - 320 : ℤ)| : ℤ) : ℚ) > (640 : ℚ) * (5 / 100) ∨
      ((|(269 - 240 : ℤ)| : ℤ) : ℚ) > (480 : ℚ) * (5 / 100)) ∧
    ((FaceDetector.mk (some (320, 240)) true).detect_movement
        (some (350 / 640, 269 / 480)) (Frame.mk 0 640 480 [])).1 = "NO FACE" := by
  refine ⟨by norm_num, ?_⟩
  exact detect_movement_deadzone (FaceDetector.mk (some (320, 240)) true)
    320 240 350 269 (350 / 640, 269 / 480) (Frame.mk 0 640 480 [])
    rfl rfl (by norm_num [pyInt]) (by norm_num [pyInt])
    (by norm_num) (Or.inl ⟨by norm_num, by norm_num⟩)

/-- C3 counterexample: with the session never started (the detector global is
`None`), the recalibrate endpoint responds 200 success, not an error body. -/
theorem recalibrate_unstarted_counterexample :
    initServerState.detector = none ∧
    (recalibrate_route initServerState).1.status = Status.success ∧
    (recalibrate_route initServerState).1.code = 200 ∧
    (recalibrate_route initServerState).1.status ≠ Status.error := by
  refine ⟨rfl, rfl, rfl, ?_⟩
  decide

/-- C3 (amended): calling recalibrate when the session has not been started
does not fail: `get_detector` lazily constructs a fresh classifier, its
calibration is reset, and the endpoint responds 200 success. -/
theorem recalibrate_unstarted (st : ServerState) (h : st.detector = none) :
    (recalibrate_route st).1.status = Status.success ∧
    (recalibrate_route st).1.code = 200 ∧
    (recalibrate_route st).2.detector = some FaceDetector.init := by
  obtain ⟨det, c, o⟩ := st
  simp only [ServerState.detector] at h
  subst h
  exact ⟨rfl, rfl, rfl⟩

/-- C3 witness: the amended behaviour at the initial module state. -/
theorem recalibrate_unstarted_witness :
    initServerState.detector = none ∧
    (recalibrate_route initServerState).1.status = Status.success ∧
    (recalibrate_route initServerState).1.code = 200 ∧
    (recalibrate_route initServerState).2.detector = some FaceDetector.init := by
  refine ⟨rfl, ?_⟩
  exact recalibrate_unstarted initServerState rfl

/-- C4: `recalibrate` clears the reference and the calibrated flag, and the
first detected-face frame after construction or after `recalibrate` stores
that frame's nose pixel as the reference, sets the flag, and returns
"CENTER (Calibrated)". -/
theorem first_frame_calibrates (s : FaceDetector) (lm : ℚ × ℚ) (f : Frame) :
    s.recalibrate.reference_nose_tip = none ∧
    s.recalibrate.calibrated = false ∧
    (FaceDetector.init.detect_movement (some lm) f).1 = "CENTER (Calibrated)" ∧
    (FaceDetector.init.detect_movement (some lm) f).2.2 =
      FaceDetector.mk (some (pyInt (lm.1 * f.w), pyInt (lm.2 * f.h))) true ∧
    (s.recalibrate.detect_movement (some lm) f).1 = "CENTER (Calibrated)" ∧
    (s.recalibrate.detect_movement (some lm) f).2.2 =
      FaceDetector.mk (some (pyInt (lm.1 * f.w), pyInt (lm.2 * f.h))) true :=
  ⟨rfl, rfl, rfl, rfl, rfl, rfl⟩

/-- C5: a frame with no detected face yields "NO FACE" and leaves the
classifier state exactly as it was. -/
theorem no_face_preserves_state (s : FaceDetector) (f : Frame) :
    (s.detect_movement none f).1 = "NO FACE" ∧
    (s.detect_movement none f).2.2 = s :=
  ⟨rfl, rfl⟩

/-- The frame loop ignores everything past the first failed read: the stream
terminates there. -/
theorem run_frames_stops_at_failure (d : FaceDetector) (good : List FrameRead)
    (rest : List (Option FrameRead)) :
    run_frames d (good.map some ++ none :: rest) = run_frames d (good.map some) := by
  induction good generalizing d with
  | nil => rfl
  | cons a t ih =>
    simp only [List.map_cons, List.cons_append, run_frames, List.append_eq, ih]

/-- `get_detector` never touches the camera global. -/
theorem get_detector_camera (st : ServerState) :
    (get_detector st).2.camera = st.camera := by
  unfold get_detector
  cases st.detector <;> rfl

/-- `get_camera` returns the existing handle untouched when it is open. -/
theorem get_camera_open (newCam : Camera) (st : ServerState) (cam : Camera)
    (hcam : st.camera = some cam) (hopen : cam.isOpened = true) :
    get_camera newCam st = (cam, st) := by
  unfold get_camera
  rw [hcam]
  exact if_pos hopen

/-- C6 counterexample: after a stream whose first read fails, the camera
global still holds the same open handle — `generate_frames` does not reset
the device state to closed. -/
theorem generate_frames_no_reset_counterexample :
    (generate_frames (Camera.mk false [])
        (ServerState.mk none (some (Camera.mk true [none])) 1)).2.camera =
      some (Camera.mk true [none]) ∧
    (Camera.mk true [none]).isOpened = true :=
  ⟨rfl, rfl⟩

/-- C6 (amended): when a device read fails mid-stream, the frames sequence
terminates at the failure without surfacing an error (it yields exactly the
frames classified before the failure), but the device state is not reset:
the camera global keeps the same handle, and a later start reopens only if
that handle itself reports closed. -/
theorem generate_frames_read_failure (st : ServerState) (cam newCam : Camera)
    (good : List FrameRead) (rest : List (Option FrameRead))
    (hcam : st.camera = some cam) (hopen : cam.isOpened = true)
    (hreads : cam.reads = good.map some ++ none :: rest) :
    (generate_frames newCam st).1 =
      (run_frames (get_detector st).1 (good.map some)).1 ∧
    (generate_frames newCam st).2.camera = some cam := by
  have hdc : (get_detector st).2.camera = some cam := by
    rw [get_detector_camera, hcam]
  have hgc := get_camera_open newCam (get_detector st).2 cam hdc hopen
  simp only [generate_frames]
  rw [hgc]
  rw [hreads, run_frames_stops_at_failure]
  exact ⟨rfl, hdc⟩

/-- C6 witness: a trace with one good no-face frame then a failed read — the
stream yields exactly the one annotated frame and the open handle survives. -/
theorem generate_frames_read_failure_witness :
    (Camera.mk true [some (FrameRead.mk none (Frame.mk 0 640 480 [])), none]).reads =
      ([FrameRead.mk none (Frame.mk 0 640 480 [])].map some) ++ none :: [] ∧
    (generate_frames (Camera.mk false [])
        (ServerState.mk none
          (some (Camera.mk true [some (FrameRead.mk none (Frame.mk 0 640 480 [])), none]))
          0)).1 =
      (run_frames
        (get_detector (ServerState.mk none
          (some (Camera.mk true [some (FrameRead.mk none (Frame.mk 0 640 480 [])), none]))
          0)).1
        ([FrameRead.mk none (Frame.mk 0 640 480 [])].map some)).1 ∧
    (generate_frames (Camera.mk false [])
        (ServerState.mk none
          (some (Camera.mk true [some (FrameRead.mk none (Frame.mk 0 640 480 [])), none]))
          0)).2.camera =
      some (Camera.mk true [some (FrameRead.mk none (Frame.mk 0 640 480 [])), none]) := by
  refine ⟨rfl, ?_⟩
  exact generate_frames_read_failure
    (ServerState.mk none
      (some (Camera.mk true [some (FrameRead.mk none (Frame.mk 0 640 480 [])), none])) 0)
    (Camera.mk true [some (FrameRead.mk none (Frame.mk 0 640 480 [])), none])
    (Camera.mk false [])
    [FrameRead.mk none (Frame.mk 0 640 480 [])] []
    rfl rfl rfl

/-- C7: from a state with no camera handle, a successful start opens exactly
one device handle; a second start without an intervening stop is a no-op
that still reports success and opens nothing further. -/
theorem start_detection_idempotent (st : ServerState) (cam1 cam2 : Camera)
    (hcam : st.camera = none) (hopen : cam1.isOpened = true) :
    (start_detection cam1 st).1.status = Status.success ∧
    (start_detection cam1 st).2.opens = st.opens + 1 ∧
    (start_detection cam2 (start_detection cam1 st).2).1.status = Status.success ∧
    (start_detection cam2 (start_detection cam1 st).2).2 =
      (start_detection cam1 st).2 := by
  obtain ⟨det, c, o⟩ := st
  simp only [ServerState.camera] at hcam
  subst hcam
  cases det <;>
    simp [start_detection, get_detector, get_camera, hopen]

/-- C7 witness: two starts from the initial state with an available device:
both succeed, one handle is opened, the second call changes nothing. -/
theorem start_detection_idempotent_witness :
    (initServerState.camera = none ∧ (Camera.mk true []).isOpened = true) ∧
    (start_detection (Camera.mk true []) initServerState).1.status = Status.success ∧
    (start_detection (Camera.mk true []) initServerState).2.opens =
      initServerState.opens + 1 ∧
    (start_detection (Camera.mk true [])
        (start_detection (Camera.mk true []) initServerState).2).1.status =
      Status.success ∧
    (start_detection (Camera.mk true [])
        (start_detection (Camera.mk true []) initServerState).2).2 =
      (start_detection (Camera.mk true []) initServerState).2 := by
  refine ⟨⟨rfl, rfl⟩, ?_⟩
  exact start_detection_idempotent initServerState (Camera.mk true [])
    (Camera.mk true []) rfl rfl

/-- C8: stop is idempotent and safe before any start: stopping the initial
state, or stopping twice in a row from any state, reports success and leaves
both the camera handle and the detector absent. -/
theorem stop_detection_idempotent (st : ServerState) :
    (stop_detection initServerState).1.status = Status.success ∧
    (stop_detection initServerState).2.camera = none ∧
    (stop_detection initServerState).2.detector = none ∧
    (stop_detection st).1.status = Status.success ∧
    (stop_detection st).2.camera = none ∧
    (stop_detection st).2.detector = none ∧
    (stop_detection (stop_detection st).2).1.status = Status.success ∧
    (stop_detection (stop_detection st).2).2 = (stop_detection st).2 := by
  obtain ⟨det, c, o⟩ := st
  cases det <;> cases c <;> exact ⟨rfl, rfl, rfl, rfl, rfl, rfl, rfl, rfl⟩

/-- The annotated frame keeps the buffer's identity and only appends drawing
calls to it. -/
def FrameExtends (g f : Frame) : Prop :=
  g.id = f.id ∧ ∃ extra, g.ops = f.ops ++ extra

theorem frameExtends_refl (f : Frame) : FrameExtends f f :=
  ⟨rfl, [], by simp⟩

theorem frameExtends_push (g f : Frame) (op : DrawOp) (h : FrameExtends g f) :
    FrameExtends (pushOp g op) f := by
  obtain ⟨hid, e, he⟩ := h
  exact ⟨hid, e ++ [op], by simp [pushOp, he]⟩

/-- C10: `detect_movement` annotates the caller's frame buffer in place —
the annotated frame it returns is the same buffer (same identity), with the
overlay drawing calls appended to it; no separate output frame is made. -/
theorem detect_movement_in_place (s : FaceDetector) (landmarks : Option (ℚ × ℚ))
    (f : Frame) :
    (s.detect_movement landmarks f).2.1.id = f.id ∧
    ∃ extra, (s.detect_movement landmarks f).2.1.ops = f.ops ++ extra := by
  cases landmarks with
  | none => exact ⟨rfl, [DrawOp.text "No face detected" (10, 30)], rfl⟩
  | some lm =>
    simp only [FaceDetector.detect_movement]
    by_cases hcal : (!s.calibrated || s.reference_nose_tip.isNone) = true
    · rw [if_pos hcal]
      exact frameExtends_push _ _ _ (frameExtends_push _ _ _
        (frameExtends_push _ _ _ (frameExtends_refl f)))
    · rw [if_neg hcal]
      exact frameExtends_push _ _ _ (frameExtends_push _ _ _
        (frameExtends_push _ _ _ (frameExtends_push _ _ _
          (frameExtends_push _ _ _ (frameExtends_push _ _ _ (frameExtends_refl f))))))

end Facial
